import Mathlib

/-!
Shallow embedding of the multi-tenant GitHub-issues ↔ Discord-threads
synchronization engine (office-sanmarlok/GitHub-Issues-Discord-Threads-Bot).

Each definition mirrors one TypeScript function of the repository; the file
and line references are given next to every definition.  JavaScript `Map`s
are modelled as insertion-ordered association lists (`alGet` / `alSet`),
JavaScript timestamps (`Date.now()`) as `Nat` milliseconds, and values that
may be `undefined` as `Option`.  JavaScript truthiness tests on optional
numbers / strings (`x || y`, `if (!x)`) are modelled explicitly: `none`,
`some 0` and `some ""` are falsy.
-/

/-! ## JavaScript `Map` model (insertion-ordered association list)

`Map.get` returns the value of the first (unique) matching key;
`Map.set` overwrites the (unique) existing entry for the key in place or
appends a new entry at the end. -/

def alGet {α : Type} (m : List (String × α)) (k : String) : Option α :=
  (m.find? (fun p => p.1 == k)).map Prod.snd

def alSet {α : Type} : List (String × α) → String → α → List (String × α)
  | [], k, v => [(k, v)]
  | p :: rest, k, v => if p.1 == k then (k, v) :: rest else p :: alSet rest k v

/-! ## Data model (src/interfaces.ts, src/types/configTypes.ts)

`Comment` is the correlation leaf `{id (Discord message id), git_id
(GitHub comment id)}`; `Thread` the correlation record.  The transient
`lockArchiving` / `lockLocking` guard flags and `mappingId` are carried
along verbatim. -/

structure Comment where
  id : String
  git_id : Nat
deriving Repr, DecidableEq

structure GuildForumTag where
  id : String
  name : String
deriving Repr, DecidableEq

structure Thread where
  id : String
  title : String
  body : Option String := none
  number : Option Nat := none
  node_id : Option String := none
  appliedTags : List String := []
  locked : Bool := false
  archived : Bool := false
  comments : List Comment := []
  lockArchiving : Bool := false
  lockLocking : Bool := false
  mappingId : Option String := none
deriving Repr, DecidableEq

structure RepoRef where
  owner : String
  name : String
deriving Repr, DecidableEq

structure RepositoryMapping where
  id : String
  channel_id : String
  repository : RepoRef
  webhook_secret : Option String := none
  enabled : Bool
deriving Repr, DecidableEq

/-! ## EnhancedStore (src/store/EnhancedStore.ts)

`metrics.lastSync : Date` is dropped (wall-clock only); the counters are
kept.  `addThread` (lines 48-77) looks up the first thread with the same
id (`findIndex`), replaces it with the merged record (`set`), or pushes
the new thread at the end; the merge keeps the existing GitHub fields
when the incoming ones are JS-falsy (`thread.number || existing.number`,
so `undefined` and `0` / `""` fall back) and appends those incoming
comments whose message id is not already present. -/

structure StoreMetrics where
  threadCount : Nat := 0
  issueCount : Nat := 0
  syncErrors : Nat := 0
  created : Nat := 0
  updated : Nat := 0
  deleted : Nat := 0
  commented : Nat := 0
deriving Repr, DecidableEq

structure EnhancedStore where
  threads : List Thread := []
  availableTags : List GuildForumTag := []
  metrics : StoreMetrics := {}
deriving Repr, DecidableEq

def jsOrNat : Option Nat → Option Nat → Option Nat
  | some n, b => if n = 0 then b else some n
  | none, b => b

def jsOrStr : Option String → Option String → Option String
  | some s, b => if s = "" then b else some s
  | none, b => b

def mergeThread (existing t : Thread) : Thread :=
  { t with
    number := jsOrNat t.number existing.number
    node_id := jsOrStr t.node_id existing.node_id
    body := jsOrStr t.body existing.body
    comments := existing.comments ++
      t.comments.filter (fun nc => !(existing.comments.any (fun c => c.id == nc.id))) }

def addThreadList : List Thread → Thread → List Thread
  | [], t => [t]
  | u :: rest, t =>
    if u.id == t.id then mergeThread u t :: rest
    else u :: addThreadList rest t

def EnhancedStore.addThread (s : EnhancedStore) (t : Thread) : EnhancedStore :=
  let existsAlready := s.threads.any (fun u => u.id == t.id)
  let ts := addThreadList s.threads t
  let m :=
    if existsAlready then { s.metrics with updated := s.metrics.updated + 1 }
    else { s.metrics with created := s.metrics.created + 1 }
  { s with
    threads := ts
    metrics :=
      { m with
        threadCount := ts.length
        issueCount := (ts.filter (fun u => u.number.isSome)).length } }

/-! ## MultiStore (src/store/MultiStore.ts)

Four JS `Map`s; `initialize` (lines 15-45) clears them and then, for each
*enabled* mapping, creates a fresh store and installs the three lookup
indices; disabled mappings are skipped. -/

structure MultiStoreState where
  stores : List (String × EnhancedStore) := []
  mappings : List (String × RepositoryMapping) := []
  channelToMapping : List (String × String) := []
  repoToMapping : List (String × String) := []
deriving Repr, DecidableEq

def getRepoKey (owner repo : String) : String :=
  owner ++ "/" ++ repo

def MultiStoreState.initStep (st : MultiStoreState) (m : RepositoryMapping) : MultiStoreState :=
  if !m.enabled then st
  else
    { stores := alSet st.stores m.id {}
      mappings := alSet st.mappings m.id m
      channelToMapping := alSet st.channelToMapping m.channel_id m.id
      repoToMapping :=
        alSet st.repoToMapping (getRepoKey m.repository.owner m.repository.name) m.id }

/-- The source method is `MultiStore.initialize`; renamed here. -/
def MultiStore.initializeStores (ms : List RepositoryMapping) : MultiStoreState :=
  ms.foldl MultiStoreState.initStep {}

def MultiStoreState.getStore (st : MultiStoreState) (mappingId : String) : Option EnhancedStore :=
  alGet st.stores mappingId

def MultiStoreState.getStoreByChannel (st : MultiStoreState) (channelId : String) :
    Option EnhancedStore :=
  match alGet st.channelToMapping channelId with
  | none => none
  | some mid => alGet st.stores mid

def MultiStoreState.getMappingById (st : MultiStoreState) (mappingId : String) :
    Option RepositoryMapping :=
  alGet st.mappings mappingId

def MultiStoreState.getMappingByRepo (st : MultiStoreState) (owner repo : String) :
    Option RepositoryMapping :=
  match alGet st.repoToMapping (getRepoKey owner repo) with
  | none => none
  | some mid => alGet st.mappings mid

def MultiStoreState.getStoreByRepo (st : MultiStoreState) (owner repo : String) :
    Option EnhancedStore :=
  match alGet st.repoToMapping (getRepoKey owner repo) with
  | none => none
  | some mid => alGet st.stores mid

def MultiStoreState.setStore (st : MultiStoreState) (mappingId : String) (s : EnhancedStore) :
    MultiStoreState :=
  { st with stores := alSet st.stores mappingId s }

/-! ## Webhook payloads and the router (src/webhook/WebhookRouter.ts)

The HTTP request is reduced to what `handleWebhook` (lines 29-88) reads:
the parsed JSON body and the `x-hub-signature-256` header.  The node
`crypto` HMAC is an external collaborator, so the router is parametrised
by the hex HMAC-SHA256 oracle `hmacSha256Hex : secret → payload → hex`
and by the JSON serialisation `stringify` used at line 66.
`crypto.timingSafeEqual` on the two UTF-8 buffers decides string
equality (a length mismatch throws, is caught at line 103 and yields
`false`, exactly as an unequal comparison does).

A registered handler runs against the resolved mapping's store; a
JavaScript handler may mutate the store through the context reference
and then either return (`ok := true`) or throw (`ok := false`), which
`routeToHandler` (lines 122-142) re-throws into the top-level catch of
`handleWebhook` (status 500). -/

structure RepoInfo where
  owner_login : String
  name : String
deriving Repr, DecidableEq

structure IssueInfo where
  number : Nat
  title : String
  body : Option String := none
  node_id : String
  labels : List String := []
  user_login : Option String := none
  state : String := "open"
deriving Repr, DecidableEq

structure CommentInfo where
  id : Nat
  body : Option String := none
  user_login : Option String := none
  avatar_url : Option String := none
deriving Repr, DecidableEq

structure WebhookPayload where
  action : String
  repository : Option RepoInfo := none
  issue : Option IssueInfo := none
  comment : Option CommentInfo := none
deriving Repr, DecidableEq

structure WebhookRequest where
  body : WebhookPayload
  signature256 : Option String := none
deriving Repr, DecidableEq

structure HandlerOutcome where
  store : EnhancedStore
  ok : Bool
deriving Repr, DecidableEq

abbrev WebhookHandler :=
  RepositoryMapping → EnhancedStore → WebhookPayload → HandlerOutcome

structure WebhookResponse where
  status : Nat
  state : MultiStoreState
  handlerInvoked : Bool
deriving Repr, DecidableEq

def WebhookRouter.validateSignature (hmacSha256Hex : String → String → String)
    (payload signature secret : String) : Bool :=
  signature == "sha256=" ++ hmacSha256Hex secret payload

/-- ContextProvider.fromRepository (src/context/ContextProvider.ts): resolve
the mapping by `owner/name` key, then its store; `none` when unmapped. -/
def ContextProvider.fromRepository (st : MultiStoreState) (owner repo : String) :
    Option (RepositoryMapping × EnhancedStore) :=
  match st.getMappingByRepo owner repo with
  | none => none
  | some mapping =>
    match st.getStore mapping.id with
    | none => none
    | some store => some (mapping, store)

/-- WebhookRouter.routeToHandler plus the surrounding success / catch logic of
`handleWebhook` lines 78-87: no registered handler is a silent success; a
handler that throws reaches the top-level catch (500); a handler that
returns yields 200.  The store reached through the context is replaced by
whatever the handler left in it. -/
def WebhookRouter.dispatch (handlers : List (String × WebhookHandler))
    (st : MultiStoreState) (mapping : RepositoryMapping) (store : EnhancedStore)
    (payload : WebhookPayload) : WebhookResponse :=
  match alGet handlers payload.action with
  | none => { status := 200, state := st, handlerInvoked := false }
  | some h =>
    let out := h mapping store payload
    if out.ok then
      { status := 200, state := st.setStore mapping.id out.store, handlerInvoked := true }
    else
      { status := 500, state := st.setStore mapping.id out.store, handlerInvoked := true }

def WebhookRouter.handleWebhook (hmacSha256Hex : String → String → String)
    (stringify : WebhookPayload → String)
    (handlers : List (String × WebhookHandler))
    (st : MultiStoreState) (req : WebhookRequest) : WebhookResponse :=
  let payload := req.body
  match payload.repository with
  | none => { status := 400, state := st, handlerInvoked := false }
  | some repo =>
    match ContextProvider.fromRepository st repo.owner_login repo.name with
    | none => { status := 404, state := st, handlerInvoked := false }
    | some (mapping, store) =>
      match mapping.webhook_secret with
      | some secret =>
        match req.signature256 with
        | none => { status := 401, state := st, handlerInvoked := false }
        | some signature =>
          if WebhookRouter.validateSignature hmacSha256Hex (stringify payload) signature secret then
            WebhookRouter.dispatch handlers st mapping store payload
          else
            { status := 401, state := st, handlerInvoked := false }
      | none => WebhookRouter.dispatch handlers st mapping store payload

/-! ## Discord-side actions (src/discord/DiscordActions.ts)

`createThread` (lines 8-53) creates the Discord forum thread (external
call, its fresh id is the parameter `newThreadId`) and pushes the
correlated `Thread` record into the context store.  (The webhook
handlers import the identically-shaped `EnhancedDiscordActions`, whose
file is not in the tree; `DiscordActions` is the implementation present
in the source.) -/

structure CreateThreadData where
  body : String
  login : String
  title : String
  appliedTags : List String
  node_id : String
  number : Nat
deriving Repr, DecidableEq

def DiscordActions.createThread (newThreadId : String) (store : EnhancedStore)
    (data : CreateThreadData) : EnhancedStore :=
  { store with
    threads := store.threads ++
      [{ id := newThreadId
         title := data.title
         body := some data.body
         node_id := some data.node_id
         number := some data.number
         appliedTags := data.appliedTags
         locked := false
         archived := false
         comments := [] }] }

/-! ## GitHub webhook handlers (src/webhook/GitHubWebhookHandlers.ts) -/

/-- handleIssueOpened (lines 15-45): no-op without an issue; no-op when a
thread correlated to the issue number already exists; otherwise map the
label names to Discord tag ids by exact name match (unmatched labels
dropped) and create the correlated thread. -/
def GitHubWebhookHandlers.handleIssueOpened (newThreadId : String)
    (store : EnhancedStore) (payload : WebhookPayload) : EnhancedStore :=
  match payload.issue with
  | none => store
  | some issue =>
    if (store.threads.find? (fun t => t.number == some issue.number)).isSome then
      store
    else
      let appliedTags := issue.labels.filterMap (fun lname =>
        (store.availableTags.find? (fun tg => tg.name == lname)).map GuildForumTag.id)
      DiscordActions.createThread newThreadId store
        { body := issue.body.getD ""
          login := issue.user_login.getD "unknown"
          title := issue.title
          appliedTags := appliedTags
          node_id := issue.node_id
          number := issue.number }

/-- Result of a comment-synchronisation handler: the store it leaves behind
and the Discord messages it deleted / created.  The source handlers for
tracker-side comment edit and delete only log. -/
structure CommentSyncResult where
  store : EnhancedStore
  deletedMessageIds : List String
  createdMessageIds : List String
deriving Repr, DecidableEq

/-- handleIssueCommentEdited (lines 155-165): after the guard on
`issue`/`comment` the body is only
`context.logger.debug('Comment edit synchronization not implemented')` —
no Discord message is deleted or recreated and the store is untouched. -/
def GitHubWebhookHandlers.handleIssueCommentEdited (store : EnhancedStore)
    (payload : WebhookPayload) : CommentSyncResult :=
  match payload.issue, payload.comment with
  | some _, some _ =>
    { store := store, deletedMessageIds := [], createdMessageIds := [] }
  | _, _ =>
    { store := store, deletedMessageIds := [], createdMessageIds := [] }

/-- handleIssueCommentDeleted (lines 170-193): looks up the thread by
`node_id` and the correlation row by `git_id`, then only logs
(`Comment deletion from GitHub not synced to Discord`) — the row is kept
and no Discord message is deleted. -/
def GitHubWebhookHandlers.handleIssueCommentDeleted (store : EnhancedStore)
    (payload : WebhookPayload) : CommentSyncResult :=
  match payload.issue, payload.comment with
  | some issue, some comment =>
    match store.threads.find? (fun t => t.node_id == some issue.node_id) with
    | none => { store := store, deletedMessageIds := [], createdMessageIds := [] }
    | some thread =>
      match thread.comments.find? (fun c => c.git_id == comment.id) with
      | none => { store := store, deletedMessageIds := [], createdMessageIds := [] }
      | some _ => { store := store, deletedMessageIds := [], createdMessageIds := [] }
  | _, _ => { store := store, deletedMessageIds := [], createdMessageIds := [] }

/-! ## GitHub-side actions (EnhancedGitHubActions, src/unnamed/part_014)

`createIssueComment` (lines 43-71) mirrors one Discord message as a
tracker comment on the thread's issue and pushes the correlation row
`{id: message.id, git_id: comment.id}`.  The GitHub call is external;
its fresh comment id is the parameter `newGitId`.  `if (!number)` is the
JS falsy test, so a missing issue number (and the unreachable `0`)
aborts without creating anything. -/

structure DiscordMessage where
  id : String
  content : String
deriving Repr, DecidableEq

def jsTruthyNat : Option Nat → Bool
  | some n => !(n == 0)
  | none => false

def createIssueComment (newGitId : Nat) (store : EnhancedStore)
    (threadId : String) (message : DiscordMessage) : EnhancedStore :=
  match store.threads.find? (fun t => t.id == threadId) with
  | none => store
  | some thread =>
    if !(jsTruthyNat thread.number) then store
    else
      { store with
        threads := store.threads.map (fun t =>
          if t.id == threadId then
            { t with comments := t.comments ++ [{ id := message.id, git_id := newGitId }] }
          else t) }

/-! ## IsolatedErrorHandler (src/error/IsolatedErrorHandler.ts)

Per-mapping error metrics keyed by mapping id.  `handleError`
(lines 29-48) bumps the total and consecutive counters, stamps the time
and bumps the per-error-name counter (`error.name || 'UnknownError'`).
`recordSuccess` (lines 53-58) zeroes the consecutive counter when an
entry exists.  `executeWithRetry` (lines 63-94) is the retry loop: the
attempt outcomes of the wrapped `fn` are the oracle
`outcomes : Nat → Option String` (`none` = the attempt succeeds,
`some e` = it throws an error named `e`); the recorded waits and the
number of `fn` invocations are returned alongside the final metrics and
the error re-thrown after the last attempt, if any. -/

structure ErrorMetrics where
  totalErrors : Nat := 0
  consecutiveErrors : Nat := 0
  lastErrorTime : Option Nat := none
  errorTypes : List (String × Nat) := []
deriving Repr, DecidableEq

structure RetryOptions where
  maxRetries : Nat := 3
  initialDelay : Nat := 1000
  maxDelay : Nat := 30000
  backoffMultiplier : Nat := 2
deriving Repr, DecidableEq

def getOrCreateMetrics (m : List (String × ErrorMetrics)) (mappingId : String) : ErrorMetrics :=
  (alGet m mappingId).getD {}

def errName (name : String) : String :=
  if name = "" then "UnknownError" else name

def IsolatedErrorHandler.handleError (m : List (String × ErrorMetrics))
    (mappingId errorName : String) (now : Nat) : List (String × ErrorMetrics) :=
  let metrics := getOrCreateMetrics m mappingId
  let et := errName errorName
  let cnt := (alGet metrics.errorTypes et).getD 0
  alSet m mappingId
    { totalErrors := metrics.totalErrors + 1
      consecutiveErrors := metrics.consecutiveErrors + 1
      lastErrorTime := some now
      errorTypes := alSet metrics.errorTypes et (cnt + 1) }

def IsolatedErrorHandler.recordSuccess (m : List (String × ErrorMetrics))
    (mappingId : String) : List (String × ErrorMetrics) :=
  match alGet m mappingId with
  | none => m
  | some metrics => alSet m mappingId { metrics with consecutiveErrors := 0 }

structure RetryResult where
  metrics : List (String × ErrorMetrics)
  attempts : Nat
  waits : List Nat
  thrown : Option String
deriving Repr, DecidableEq

/-- The loop body of `executeWithRetry` from attempt number `attempt` with
current backoff `delay`; `remaining = maxRetries - attempt` spare retries
(`attempt < maxRetries` in the source is `remaining > 0`).  The backoff
update is `delay = Math.min(delay * backoffMultiplier, maxDelay)`. -/
def retryLoop (opts : RetryOptions) (outcomes : Nat → Option String)
    (mappingId : String) (now : Nat) : Nat → Nat → Nat →
    List (String × ErrorMetrics) → RetryResult
  | attempt, delay, remaining, m =>
    match outcomes attempt with
    | none =>
      { metrics := IsolatedErrorHandler.recordSuccess m mappingId
        attempts := 1, waits := [], thrown := none }
    | some e =>
      let m1 := IsolatedErrorHandler.handleError m mappingId e now
      match remaining with
      | 0 => { metrics := m1, attempts := 1, waits := [], thrown := some e }
      | r + 1 =>
        let out := retryLoop opts outcomes mappingId now (attempt + 1)
          (min (delay * opts.backoffMultiplier) opts.maxDelay) r m1
        { out with attempts := out.attempts + 1, waits := delay :: out.waits }

def IsolatedErrorHandler.executeWithRetry (opts : RetryOptions)
    (outcomes : Nat → Option String) (mappingId : String) (now : Nat)
    (m : List (String × ErrorMetrics)) : RetryResult :=
  retryLoop opts outcomes mappingId now 0 opts.initialDelay opts.maxRetries m

/-! ## MappingCircuitBreaker (src/error/IsolatedErrorHandler.ts lines 146-249)

Per-mapping breaker state (`getState` creates `closed / 0 failures` on
first use).  `execute` (lines 165-208) is modelled as one step on one
mapping's state: `fnSucceeds` is the outcome the wrapped operation
*would* produce if invoked (the hard per-operation timeout race of
lines 181-184 turns a timeout into just such a failure), `invoked`
records whether the wrapped operation ran.  The source status `'open'`
is the constructor `opened`.  With `lastFailureTime` undefined the open
branch compares against `NaN`, which is never `>` the reset timeout, so
no probe is allowed. -/

inductive CircuitStatus
  | closed
  | opened
  | halfOpen
deriving Repr, DecidableEq

structure CircuitState where
  status : CircuitStatus := .closed
  failures : Nat := 0
  lastFailureTime : Option Nat := none
deriving Repr, DecidableEq

structure BreakerConfig where
  threshold : Nat := 5
  timeout : Nat := 60000
  resetTimeout : Nat := 300000
deriving Repr, DecidableEq

inductive BreakerResult
  | ok
  | breakerOpenError
  | breakerOpenedError
  | wrappedError
deriving Repr, DecidableEq

structure BreakerOut where
  result : BreakerResult
  state : CircuitState
  invoked : Bool
deriving Repr, DecidableEq

/-- The try/catch body of `execute` (lines 180-207) once the open
fast-fail check has passed, on the possibly half-opened state. -/
def MappingCircuitBreaker.runBody (cfg : BreakerConfig) (now : Nat)
    (s : CircuitState) (fnSucceeds : Bool) : BreakerOut :=
  if fnSucceeds then
    if s.status = .halfOpen then
      { result := .ok
        state := { status := .closed, failures := 0, lastFailureTime := none }
        invoked := true }
    else
      { result := .ok, state := s, invoked := true }
  else
    let failures := s.failures + 1
    if cfg.threshold ≤ failures then
      { result := .breakerOpenedError
        state := { status := .opened, failures := failures, lastFailureTime := some now }
        invoked := true }
    else
      { result := .wrappedError
        state := { s with failures := failures, lastFailureTime := some now }
        invoked := true }

def MappingCircuitBreaker.execute (cfg : BreakerConfig) (now : Nat)
    (s : CircuitState) (fnSucceeds : Bool) : BreakerOut :=
  if s.status = .opened then
    let probe : Bool :=
      match s.lastFailureTime with
      | some t => decide (cfg.resetTimeout < now - t)
      | none => false
    if probe then
      MappingCircuitBreaker.runBody cfg now { s with status := .halfOpen } fnSucceeds
    else
      { result := .breakerOpenError, state := s, invoked := false }
  else
    MappingCircuitBreaker.runBody cfg now s fnSucceeds

/-! ## HealthMonitor (src/unnamed/part_015)

`getMappingHealth` (lines 89-143) returns `undefined` unless mapping and
store exist, runs the three connectivity checks (the Discord and GitHub
checks are source-level placeholders returning `true`; the store check
is `store !== undefined`, true at that point) and classifies with the
fixed thresholds of lines 108-124.  The inactivity test
`(now - lastActivity) / 3600000 > 24` on millisecond floats is the
integer comparison `now - lastActivity > 86400000`. -/

inductive HealthStatus
  | healthy
  | degraded
  | unhealthy
deriving Repr, DecidableEq

def HealthMonitor.computeStatus (errorMetrics : Option ErrorMetrics)
    (checksDiscord checksGithub checksStore : Bool)
    (lastActivity : Option Nat) (now : Nat) : HealthStatus :=
  let s : HealthStatus :=
    if (errorMetrics.map (fun em => decide (10 < em.consecutiveErrors))).getD false then
      .unhealthy
    else if (errorMetrics.map (fun em => decide (5 < em.consecutiveErrors))).getD false then
      .degraded
    else if !checksDiscord || !checksGithub || !checksStore then
      .degraded
    else
      .healthy
  match lastActivity with
  | some la => if 86400000 < now - la ∧ s = .healthy then .degraded else s
  | none => s

def HealthMonitor.getMappingHealth (mappingExists storeExists : Bool)
    (errorMetrics : Option ErrorMetrics) (lastActivity : Option Nat)
    (now : Nat) : Option HealthStatus :=
  if !mappingExists then none
  else if !storeExists then none
  else some (HealthMonitor.computeStatus errorMetrics true true true lastActivity now)

/-! ## Derived observers used by the statements below -/

/-- One backoff update of the retry loop:
`delay = Math.min(delay * backoffMultiplier, maxDelay)`. -/
def stepDelay (opts : RetryOptions) (d : Nat) : Nat :=
  min (d * opts.backoffMultiplier) opts.maxDelay

def totalOf (m : List (String × ErrorMetrics)) (mappingId : String) : Nat :=
  (getOrCreateMetrics m mappingId).totalErrors

def consecutiveOf (m : List (String × ErrorMetrics)) (mappingId : String) : Nat :=
  (getOrCreateMetrics m mappingId).consecutiveErrors

def lastErrorTimeOf (m : List (String × ErrorMetrics)) (mappingId : String) : Option Nat :=
  (getOrCreateMetrics m mappingId).lastErrorTime

def typeCountOf (m : List (String × ErrorMetrics)) (mappingId et : String) : Nat :=
  (alGet (getOrCreateMetrics m mappingId).errorTypes et).getD 0

/-- The circuit-breaker state after one call whose wrapped operation would
fail. -/
def failIter (cfg : BreakerConfig) (now : Nat) (s : CircuitState) : CircuitState :=
  (MappingCircuitBreaker.execute cfg now s false).state

/-! ## Association-list map lemmas -/

theorem alGet_nil {α : Type} (k : String) : alGet ([] : List (String × α)) k = none := rfl

theorem alGet_cons {α : Type} (p : String × α) (rest : List (String × α)) (k : String) :
    alGet (p :: rest) k = if p.1 = k then some p.2 else alGet rest k := by
  by_cases h : p.1 = k <;> simp [alGet, List.find?_cons, h]

theorem alGet_alSet {α : Type} (m : List (String × α)) (k k' : String) (v : α) :
    alGet (alSet m k v) k' = if k' = k then some v else alGet m k' := by
  induction m with
  | nil =>
    by_cases h : k' = k
    · subst h; simp [alSet, alGet_cons]
    · have h1 : ¬ k = k' := fun hh => h hh.symm
      simp [alSet, alGet_cons, h, h1, alGet_nil]
  | cons p rest ih =>
    by_cases hpk : p.1 = k
    · have hb : (p.1 == k) = true := by simpa using hpk
      by_cases h : k' = k
      · subst h; simp [alSet, hb, alGet_cons]
      · have h1 : ¬ k = k' := fun hh => h hh.symm
        have h2 : ¬ p.1 = k' := by rw [hpk]; exact h1
        simp [alSet, hb, alGet_cons, h, h1, h2]
    · have hb : (p.1 == k) = false := by simpa using hpk
      by_cases hpk' : p.1 = k'
      · have h : ¬ k' = k := fun hh => hpk (by rw [hpk', hh])
        simp [alSet, hb, alGet_cons, hpk', h]
      · simp [alSet, hb, alGet_cons, hpk', ih]

theorem alGet_alSet_self {α : Type} (m : List (String × α)) (k : String) (v : α) :
    alGet (alSet m k v) k = some v := by
  simp [alGet_alSet]

theorem alGet_alSet_ne {α : Type} (m : List (String × α)) (k k' : String) (v : α)
    (h : k' ≠ k) : alGet (alSet m k v) k' = alGet m k' := by
  simp [alGet_alSet, h]

theorem alGet_alSet_some {α : Type} {m : List (String × α)} {k k' : String} {v v' : α}
    (h : alGet (alSet m k v) k' = some v') : v' = v ∨ alGet m k' = some v' := by
  rw [alGet_alSet] at h
  by_cases hk : k' = k
  · left; simp [hk] at h; exact h.symm
  · right; simpa [hk] using h

/-- Invariant preservation along `List.foldl`. -/
theorem foldl_preserve {β σ : Type} (f : σ → β → σ) (P : σ → Prop) :
    ∀ (l : List β) (s : σ), P s → (∀ s' b, b ∈ l → P s' → P (f s' b)) →
      P (l.foldl f s) := by
  intro l
  induction l with
  | nil => intro s hs _; exact hs
  | cons b rest ih =>
    intro s hs hstep
    exact ih (f s b) (hstep s b (List.mem_cons_self b rest) hs)
      (fun s' b' hb' => hstep s' b' (List.mem_cons_of_mem b hb'))

/-! ## Claim C9 — health classification thresholds -/

/-- Claim C9: `HealthMonitor.getMappingHealth` classifies with fixed strict
thresholds: more than 10 consecutive errors is unhealthy; more than 5 (but
at most 10) is degraded; an otherwise-healthy mapping whose last recorded
activity is more than 24 hours old is degraded; and 0 consecutive errors
with recent activity is healthy (so 6 consecutive errors give degraded and
11 give unhealthy). -/
theorem getMappingHealth_thresholds (em : ErrorMetrics) (la now : Nat) :
    (10 < em.consecutiveErrors →
      HealthMonitor.getMappingHealth true true (some em) (some la) now =
        some .unhealthy)
  ∧ (5 < em.consecutiveErrors → em.consecutiveErrors ≤ 10 →
      HealthMonitor.getMappingHealth true true (some em) (some la) now =
        some .degraded)
  ∧ (em.consecutiveErrors ≤ 5 → 86400000 < now - la →
      HealthMonitor.getMappingHealth true true (some em) (some la) now =
        some .degraded)
  ∧ (em.consecutiveErrors = 0 → now - la ≤ 86400000 →
      HealthMonitor.getMappingHealth true true (some em) (some la) now =
        some .healthy) := by
  refine ⟨fun h1 => ?_, fun h1 h2 => ?_, fun h1 h2 => ?_, fun h1 h2 => ?_⟩
  · simp [HealthMonitor.getMappingHealth, HealthMonitor.computeStatus, h1]
  · have h3 : ¬ 10 < em.consecutiveErrors := by omega
    simp [HealthMonitor.getMappingHealth, HealthMonitor.computeStatus, h1, h3]
  · have h3 : ¬ 10 < em.consecutiveErrors := by omega
    have h4 : ¬ 5 < em.consecutiveErrors := by omega
    simp [HealthMonitor.getMappingHealth, HealthMonitor.computeStatus, h3, h4, h2]
  · have h3 : ¬ 10 < em.consecutiveErrors := by omega
    have h4 : ¬ 5 < em.consecutiveErrors := by omega
    have h5 : ¬ 86400000 < now - la := by omega
    simp [HealthMonitor.getMappingHealth, HealthMonitor.computeStatus, h3, h4, h5]

/-- Witness for C9 at concrete metrics: 11 consecutive errors are
unhealthy, 6 are degraded, a 24h-stale mapping is degraded, and a fresh
error-free mapping is healthy. -/
theorem getMappingHealth_thresholds_witness :
    HealthMonitor.getMappingHealth true true
      (some { totalErrors := 12, consecutiveErrors := 11 }) (some 0) 0 =
        some .unhealthy
  ∧ HealthMonitor.getMappingHealth true true
      (some { totalErrors := 6, consecutiveErrors := 6 }) (some 0) 0 =
        some .degraded
  ∧ HealthMonitor.getMappingHealth true true
      (some { totalErrors := 3, consecutiveErrors := 0 }) (some 5) 86400006 =
        some .degraded
  ∧ HealthMonitor.getMappingHealth true true
      (some { totalErrors := 0, consecutiveErrors := 0 }) (some 10) 20 =
        some .healthy :=
  ⟨(getMappingHealth_thresholds { totalErrors := 12, consecutiveErrors := 11 } 0 0).1
      (by decide),
   (getMappingHealth_thresholds { totalErrors := 6, consecutiveErrors := 6 } 0 0).2.1
      (by decide) (by decide),
   (getMappingHealth_thresholds { totalErrors := 3, consecutiveErrors := 0 } 5
      86400006).2.2.1 (by decide) (by decide),
   (getMappingHealth_thresholds { totalErrors := 0, consecutiveErrors := 0 } 10
      20).2.2.2 (by decide) (by decide)⟩

/-! ## Claim C5 — tracker-side comment edit -/

/-- Claim C5 (amended): a tracker-side comment-edited event performs no
synchronisation: `handleIssueCommentEdited` deletes no Discord message,
recreates none, and leaves the store — hence every correlation row —
unchanged (the source body only logs that edit synchronisation is not
implemented); in particular no correlation row can be orphaned. -/
theorem handleIssueCommentEdited_noop (store : EnhancedStore) (payload : WebhookPayload) :
    GitHubWebhookHandlers.handleIssueCommentEdited store payload =
      { store := store, deletedMessageIds := [], createdMessageIds := [] } := by
  rcases payload with ⟨a, r, i, c⟩
  cases i <;> cases c <;> rfl

/-- Claim C5 counterexample: on a correlated, linked comment the
edited-handler deletes nothing and the correlation row still points at the
old Discord message id — there is no delete-then-recreate. -/
theorem handleIssueCommentEdited_counterexample :
    let store : EnhancedStore :=
      { threads := [{ id := "thr1", title := "T", number := some 7,
                      node_id := some "NODE7",
                      comments := [{ id := "msg1", git_id := 100 }] }] }
    let payload : WebhookPayload :=
      { action := "edited",
        repository := some { owner_login := "o", name := "r" },
        issue := some { number := 7, title := "T", node_id := "NODE7" },
        comment := some { id := 100 } }
    let out := GitHubWebhookHandlers.handleIssueCommentEdited store payload
    out.deletedMessageIds = [] ∧ out.createdMessageIds = [] ∧
      out.store.threads.map Thread.comments = [[{ id := "msg1", git_id := 100 }]] :=
  ⟨rfl, rfl, rfl⟩

/-! ## Claim C7 — disabled mappings are skipped -/

/-- Claim C7 (amended): after `MultiStore.initializeStores`, a disabled mapping
whose id is not also the id of an enabled mapping of the list gets no
store (`getStore` is `none`), no registry entry, and no channel-index or
repository-index entry ever resolves to its mapping id. -/
theorem initialize_skips_disabled (ms : List RepositoryMapping) (m : RepositoryMapping)
    (hm : m ∈ ms) (hdis : m.enabled = false)
    (huniq : ∀ m2 ∈ ms, m2.enabled = true → m2.id ≠ m.id) :
    (MultiStore.initializeStores ms).getStore m.id = none
  ∧ (MultiStore.initializeStores ms).getMappingById m.id = none
  ∧ (∀ c v, alGet (MultiStore.initializeStores ms).channelToMapping c = some v → v ≠ m.id)
  ∧ (∀ k v, alGet (MultiStore.initializeStores ms).repoToMapping k = some v → v ≠ m.id) := by
  have main :
      (alGet (MultiStore.initializeStores ms).stores m.id = none ∧
        alGet (MultiStore.initializeStores ms).mappings m.id = none) ∧
      (∀ c v, alGet (MultiStore.initializeStores ms).channelToMapping c = some v → v ≠ m.id) ∧
      (∀ k v, alGet (MultiStore.initializeStores ms).repoToMapping k = some v → v ≠ m.id) := by
    refine foldl_preserve MultiStoreState.initStep
      (fun st =>
        (alGet st.stores m.id = none ∧ alGet st.mappings m.id = none) ∧
        (∀ c v, alGet st.channelToMapping c = some v → v ≠ m.id) ∧
        (∀ k v, alGet st.repoToMapping k = some v → v ≠ m.id))
      ms {} ?_ ?_
    · exact ⟨⟨rfl, rfl⟩, fun c v h => by simp [alGet_nil] at h,
        fun k v h => by simp [alGet_nil] at h⟩
    · intro st m2 hm2 hP
      rcases hP with ⟨⟨hs, hmm⟩, hch, hrp⟩
      cases hen : m2.enabled with
      | false => simpa [MultiStoreState.initStep, hen] using ⟨⟨hs, hmm⟩, hch, hrp⟩
      | true =>
        have hne : m2.id ≠ m.id := huniq m2 hm2 hen
        have hne' : m.id ≠ m2.id := fun h => hne h.symm
        refine ⟨⟨?_, ?_⟩, ?_, ?_⟩
        · simpa [MultiStoreState.initStep, hen, alGet_alSet_ne _ _ _ _ hne'] using hs
        · simpa [MultiStoreState.initStep, hen, alGet_alSet_ne _ _ _ _ hne'] using hmm
        · intro c v h
          simp only [MultiStoreState.initStep, hen] at h
          rcases alGet_alSet_some h with h1 | h1
          · exact h1 ▸ hne
          · exact hch c v h1
        · intro k v h
          simp only [MultiStoreState.initStep, hen] at h
          rcases alGet_alSet_some h with h1 | h1
          · exact h1 ▸ hne
          · exact hrp k v h1
  exact ⟨main.1.1, main.1.2, main.2.1, main.2.2⟩

/-- Witness for C7 on the spec's own example: mapping `m2` is disabled, so
after initialization `getStore "m2"` is `none` and no index entry points
at `m2`. -/
theorem initialize_skips_disabled_witness :
    (MultiStore.initializeStores
        [{ id := "m1", channel_id := "c1", repository := { owner := "o", name := "r1" },
           enabled := true },
         { id := "m2", channel_id := "c2", repository := { owner := "o", name := "r2" },
           enabled := false }]).getStore "m2" = none
  ∧ (MultiStore.initializeStores
        [{ id := "m1", channel_id := "c1", repository := { owner := "o", name := "r1" },
           enabled := true },
         { id := "m2", channel_id := "c2", repository := { owner := "o", name := "r2" },
           enabled := false }]).getMappingById "m2" = none
  ∧ (∀ c v, alGet (MultiStore.initializeStores
        [{ id := "m1", channel_id := "c1", repository := { owner := "o", name := "r1" },
           enabled := true },
         { id := "m2", channel_id := "c2", repository := { owner := "o", name := "r2" },
           enabled := false }]).channelToMapping c = some v → v ≠ "m2")
  ∧ (∀ k v, alGet (MultiStore.initializeStores
        [{ id := "m1", channel_id := "c1", repository := { owner := "o", name := "r1" },
           enabled := true },
         { id := "m2", channel_id := "c2", repository := { owner := "o", name := "r2" },
           enabled := false }]).repoToMapping k = some v → v ≠ "m2") :=
  initialize_skips_disabled
    [{ id := "m1", channel_id := "c1", repository := { owner := "o", name := "r1" },
       enabled := true },
     { id := "m2", channel_id := "c2", repository := { owner := "o", name := "r2" },
       enabled := false }]
    { id := "m2", channel_id := "c2", repository := { owner := "o", name := "r2" },
      enabled := false }
    (by decide) (by decide) (by decide)

/-- Claim C7 counterexample: with a list in which an enabled mapping shares
the disabled mapping's id, `getStore` of the disabled mapping's id is
defined after initialization — the claim as stated fails on such a list. -/
theorem initialize_skips_disabled_counterexample :
    (MultiStore.initializeStores
        [{ id := "m2", channel_id := "c1", repository := { owner := "o", name := "r1" },
           enabled := true },
         { id := "m2", channel_id := "c2", repository := { owner := "o", name := "r2" },
           enabled := false }]).getStore "m2" = some {} := by decide

/-! ## Claims C2 and C6 — webhook router -/

theorem dispatch_status (handlers : List (String × WebhookHandler))
    (st : MultiStoreState) (mapping : RepositoryMapping) (store : EnhancedStore)
    (payload : WebhookPayload) :
    (WebhookRouter.dispatch handlers st mapping store payload).status = 200
  ∨ (WebhookRouter.dispatch handlers st mapping store payload).status = 500 := by
  unfold WebhookRouter.dispatch
  cases alGet handlers payload.action with
  | none => left; rfl
  | some h =>
    by_cases hok : (h mapping store payload).ok
    · left; simp [hok]
    · right; simp [hok]

/-- Claim C2: against a mapping that carries a webhook secret, a request
with a missing `x-hub-signature-256` header, or with a header different
from `sha256=` ++ HMAC-SHA256(secret, payload) — `crypto.timingSafeEqual`
is modelled by string equality — is rejected with status 401, runs no
handler and leaves the multi-store state unchanged; a correct signature is
accepted (status 200 or 500, never 401) and dispatched to the handler
table. -/
theorem handleWebhook_signature (hmac : String → String → String)
    (stringify : WebhookPayload → String) (handlers : List (String × WebhookHandler))
    (st : MultiStoreState) (req : WebhookRequest) (repo : RepoInfo)
    (mapping : RepositoryMapping) (store : EnhancedStore) (secret : String)
    (hrepo : req.body.repository = some repo)
    (hres : ContextProvider.fromRepository st repo.owner_login repo.name =
      some (mapping, store))
    (hsec : mapping.webhook_secret = some secret) :
    (req.signature256 = none →
      WebhookRouter.handleWebhook hmac stringify handlers st req =
        { status := 401, state := st, handlerInvoked := false })
  ∧ (∀ sig, req.signature256 = some sig →
      sig ≠ "sha256=" ++ hmac secret (stringify req.body) →
      WebhookRouter.handleWebhook hmac stringify handlers st req =
        { status := 401, state := st, handlerInvoked := false })
  ∧ (∀ sig, req.signature256 = some sig →
      sig = "sha256=" ++ hmac secret (stringify req.body) →
      WebhookRouter.handleWebhook hmac stringify handlers st req =
        WebhookRouter.dispatch handlers st mapping store req.body) := by
  refine ⟨fun hnone => ?_, fun sig hs hne => ?_, fun sig hs heq => ?_⟩
  · simp [WebhookRouter.handleWebhook, hrepo, hres, hsec, hnone]
  · have hv : WebhookRouter.validateSignature hmac (stringify req.body) sig secret = false := by
      simp [WebhookRouter.validateSignature, hne]
    simp [WebhookRouter.handleWebhook, hrepo, hres, hsec, hs, hv]
  · have hv : WebhookRouter.validateSignature hmac (stringify req.body) sig secret = true := by
      simp [WebhookRouter.validateSignature, heq]
    simp [WebhookRouter.handleWebhook, hrepo, hres, hsec, hs, hv]

/-- Witness for C2: a request without a signature header against a
secret-bearing mapping is answered 401 with no handler invocation and the
state untouched. -/
theorem handleWebhook_signature_witness :
    ({ body := { action := "opened",
                 repository := some { owner_login := "o", name := "r" } },
       signature256 := none } : WebhookRequest).body.repository =
        some { owner_login := "o", name := "r" }
  ∧ ContextProvider.fromRepository
      (MultiStore.initializeStores
        [{ id := "m1", channel_id := "c1",
           repository := { owner := "o", name := "r" },
           webhook_secret := some "sec", enabled := true }]) "o" "r" =
      some ({ id := "m1", channel_id := "c1",
              repository := { owner := "o", name := "r" },
              webhook_secret := some "sec", enabled := true }, {})
  ∧ WebhookRouter.handleWebhook (fun s p => s ++ p) (fun _ => "PL") []
      (MultiStore.initializeStores
        [{ id := "m1", channel_id := "c1",
           repository := { owner := "o", name := "r" },
           webhook_secret := some "sec", enabled := true }])
      { body := { action := "opened",
                  repository := some { owner_login := "o", name := "r" } },
        signature256 := none } =
      { status := 401,
        state := MultiStore.initializeStores
          [{ id := "m1", channel_id := "c1",
             repository := { owner := "o", name := "r" },
             webhook_secret := some "sec", enabled := true }],
        handlerInvoked := false } :=
  ⟨rfl, by decide,
    (handleWebhook_signature (fun s p => s ++ p) (fun _ => "PL") []
      (MultiStore.initializeStores
        [{ id := "m1", channel_id := "c1",
           repository := { owner := "o", name := "r" },
           webhook_secret := some "sec", enabled := true }])
      { body := { action := "opened",
                  repository := some { owner_login := "o", name := "r" } },
        signature256 := none }
      { owner_login := "o", name := "r" }
      { id := "m1", channel_id := "c1",
        repository := { owner := "o", name := "r" },
        webhook_secret := some "sec", enabled := true }
      {} "sec" rfl (by decide) rfl).1 rfl⟩

/-- Claim C6 (amended): the response status reflects routing,
authentication, and the synchronous outcome of the dispatched handler:
400 when the payload lacks repository identification (no dispatch), 404
when no mapping matches (no further processing); on an authenticated
request, 200 when no handler is registered for the action string or when
the handler completes, and 500 when the dispatched handler throws — the
handler is awaited before the response, so a synchronous handler failure
is visible in the status. -/
theorem handleWebhook_status (hmac : String → String → String)
    (stringify : WebhookPayload → String) (handlers : List (String × WebhookHandler))
    (st : MultiStoreState) (req : WebhookRequest) :
    (req.body.repository = none →
      WebhookRouter.handleWebhook hmac stringify handlers st req =
        { status := 400, state := st, handlerInvoked := false })
  ∧ (∀ repo, req.body.repository = some repo →
      ContextProvider.fromRepository st repo.owner_login repo.name = none →
      WebhookRouter.handleWebhook hmac stringify handlers st req =
        { status := 404, state := st, handlerInvoked := false })
  ∧ (∀ repo mapping store, req.body.repository = some repo →
      ContextProvider.fromRepository st repo.owner_login repo.name =
        some (mapping, store) →
      mapping.webhook_secret = none →
      (alGet handlers req.body.action = none →
        WebhookRouter.handleWebhook hmac stringify handlers st req =
          { status := 200, state := st, handlerInvoked := false })
      ∧ (∀ h, alGet handlers req.body.action = some h →
          (h mapping store req.body).ok = true →
          (WebhookRouter.handleWebhook hmac stringify handlers st req).status = 200)
      ∧ (∀ h, alGet handlers req.body.action = some h →
          (h mapping store req.body).ok = false →
          (WebhookRouter.handleWebhook hmac stringify handlers st req).status = 500)) := by
  refine ⟨fun hnone => ?_, fun repo hrepo hres => ?_,
    fun repo mapping store hrepo hres hsec => ⟨fun hno => ?_, fun h hh hok => ?_,
      fun h hh hok => ?_⟩⟩
  · simp [WebhookRouter.handleWebhook, hnone]
  · simp [WebhookRouter.handleWebhook, hrepo, hres]
  · simp [WebhookRouter.handleWebhook, hrepo, hres, hsec, WebhookRouter.dispatch, hno]
  · simp [WebhookRouter.handleWebhook, hrepo, hres, hsec, WebhookRouter.dispatch, hh, hok]
  · simp [WebhookRouter.handleWebhook, hrepo, hres, hsec, WebhookRouter.dispatch, hh, hok]

/-- Witness for C6: an authenticated request whose action has no
registered handler is still answered 200. -/
theorem handleWebhook_status_witness :
    ({ body := { action := "opened",
                 repository := some { owner_login := "o", name := "r" } } } :
        WebhookRequest).body.repository = some { owner_login := "o", name := "r" }
  ∧ ContextProvider.fromRepository
      (MultiStore.initializeStores
        [{ id := "m1", channel_id := "c1",
           repository := { owner := "o", name := "r" }, enabled := true }]) "o" "r" =
      some ({ id := "m1", channel_id := "c1",
              repository := { owner := "o", name := "r" }, enabled := true }, {})
  ∧ WebhookRouter.handleWebhook (fun s p => s ++ p) (fun _ => "PL") []
      (MultiStore.initializeStores
        [{ id := "m1", channel_id := "c1",
           repository := { owner := "o", name := "r" }, enabled := true }])
      { body := { action := "opened",
                  repository := some { owner_login := "o", name := "r" } } } =
      { status := 200,
        state := MultiStore.initializeStores
          [{ id := "m1", channel_id := "c1",
             repository := { owner := "o", name := "r" }, enabled := true }],
        handlerInvoked := false } :=
  ⟨rfl, by decide,
    ((handleWebhook_status (fun s p => s ++ p) (fun _ => "PL") []
      (MultiStore.initializeStores
        [{ id := "m1", channel_id := "c1",
           repository := { owner := "o", name := "r" }, enabled := true }])
      { body := { action := "opened",
                  repository := some { owner_login := "o", name := "r" } } }).2.2
      { owner_login := "o", name := "r" }
      { id := "m1", channel_id := "c1",
        repository := { owner := "o", name := "r" }, enabled := true }
      {} rfl (by decide) rfl).1 rfl⟩

/-- Claim C6 counterexample: a routed, authenticated request dispatched to
a registered handler that throws is answered 500, not success — the status
does reflect the synchronous outcome of the handler, contradicting the
claim as stated. -/
theorem handleWebhook_status_counterexample :
    (WebhookRouter.handleWebhook (fun s p => s ++ p) (fun _ => "PL")
      [("opened", fun _ s _ => { store := s, ok := false })]
      (MultiStore.initializeStores
        [{ id := "m1", channel_id := "c1",
           repository := { owner := "o", name := "r" }, enabled := true }])
      { body := { action := "opened",
                  repository := some { owner_login := "o", name := "r" } } }).status
    = 500 := by
  simp [WebhookRouter.handleWebhook, WebhookRouter.dispatch,
    ContextProvider.fromRepository, MultiStore.initializeStores,
    MultiStoreState.initStep, MultiStoreState.getMappingByRepo,
    MultiStoreState.getStore, alGet, alSet, getRepoKey]

/-! ## Claim C3 — idempotent issue-opened handling -/

theorem find?_append_none {α : Type} (p : α → Bool) (l1 l2 : List α)
    (h : l1.find? p = none) : (l1 ++ l2).find? p = l2.find? p := by
  induction l1 with
  | nil => rfl
  | cons a rest ih =>
    cases hpa : p a with
    | true => simp [List.find?_cons, hpa] at h
    | false =>
      simp only [List.cons_append, List.find?_cons, hpa] at h ⊢
      exact ih h

theorem handleIssueOpened_found (newId : String) (store : EnhancedStore)
    (payload : WebhookPayload) (issue : IssueInfo) (hiss : payload.issue = some issue)
    (hfind : (store.threads.find? (fun t => t.number == some issue.number)).isSome) :
    GitHubWebhookHandlers.handleIssueOpened newId store payload = store := by
  simp [GitHubWebhookHandlers.handleIssueOpened, hiss, hfind]

/-- Claim C3 (amended): handling the same "issue opened" payload twice is
idempotent on a store holding at most one thread correlated to the issue
number: afterwards exactly one such thread exists, and the second run —
finding the existing row by issue number — changes nothing. -/
theorem handleIssueOpened_idempotent (newId1 newId2 : String)
    (store : EnhancedStore) (payload : WebhookPayload) (issue : IssueInfo)
    (hiss : payload.issue = some issue)
    (hcount : store.threads.countP (fun t => t.number == some issue.number) ≤ 1) :
    ((GitHubWebhookHandlers.handleIssueOpened newId2
        (GitHubWebhookHandlers.handleIssueOpened newId1 store payload)
        payload).threads.countP (fun t => t.number == some issue.number) = 1)
  ∧ GitHubWebhookHandlers.handleIssueOpened newId2
      (GitHubWebhookHandlers.handleIssueOpened newId1 store payload) payload =
    GitHubWebhookHandlers.handleIssueOpened newId1 store payload := by
  by_cases hfind : (store.threads.find? (fun t => t.number == some issue.number)).isSome
  · have h1 : GitHubWebhookHandlers.handleIssueOpened newId1 store payload = store := by
      simp [GitHubWebhookHandlers.handleIssueOpened, hiss, hfind]
    rw [h1]
    have h2 : GitHubWebhookHandlers.handleIssueOpened newId2 store payload = store := by
      simp [GitHubWebhookHandlers.handleIssueOpened, hiss, hfind]
    rw [h2]
    refine ⟨?_, rfl⟩
    rcases Option.isSome_iff_exists.mp hfind with ⟨a, ha⟩
    have hmem := List.mem_of_find?_eq_some ha
    have hpa := List.find?_some ha
    have hpos : 0 < store.threads.countP (fun t => t.number == some issue.number) :=
      List.countP_pos_iff.mpr ⟨a, hmem, hpa⟩
    omega
  · have hnone : store.threads.find? (fun t => t.number == some issue.number) = none :=
      Option.not_isSome_iff_eq_none.mp hfind
    have hzero : store.threads.countP (fun t => t.number == some issue.number) = 0 := by
      rw [List.countP_eq_zero]
      intro a ha
      exact List.find?_eq_none.mp hnone a ha
    obtain ⟨T, h1, hTnum⟩ :
        ∃ T : Thread, GitHubWebhookHandlers.handleIssueOpened newId1 store payload =
            { store with threads := store.threads ++ [T] } ∧
          T.number = some issue.number := by
      refine ⟨{ id := newId1, title := issue.title, body := some (issue.body.getD ""),
                node_id := some issue.node_id, number := some issue.number,
                appliedTags := issue.labels.filterMap (fun lname =>
                  (store.availableTags.find? (fun tg => tg.name == lname)).map
                    GuildForumTag.id),
                locked := false, archived := false, comments := [] }, ?_, rfl⟩
      simp [GitHubWebhookHandlers.handleIssueOpened, hiss, hfind,
        DiscordActions.createThread]
    rw [h1]
    have hfind1 : ((store.threads ++ [T]).find?
        (fun t => t.number == some issue.number)).isSome := by
      rw [find?_append_none _ _ _ hnone]
      simp [List.find?_cons, hTnum]
    have h2 : GitHubWebhookHandlers.handleIssueOpened newId2
        ({ store with threads := store.threads ++ [T] }) payload =
        { store with threads := store.threads ++ [T] } :=
      handleIssueOpened_found newId2 _ payload issue hiss hfind1
    rw [h2]
    refine ⟨?_, rfl⟩
    simp [List.countP_append, hzero, List.countP_cons, hTnum]

/-- Witness for C3: replaying "issue opened" for issue 1 on an empty store
leaves exactly one correlated thread and the second run changes nothing. -/
theorem handleIssueOpened_idempotent_witness :
    ({ action := "opened", issue := some { number := 1, title := "T", node_id := "N" } } :
        WebhookPayload).issue = some { number := 1, title := "T", node_id := "N" }
  ∧ ({} : EnhancedStore).threads.countP (fun t => t.number == some 1) ≤ 1
  ∧ ((GitHubWebhookHandlers.handleIssueOpened "t2"
        (GitHubWebhookHandlers.handleIssueOpened "t1" {}
          { action := "opened", issue := some { number := 1, title := "T", node_id := "N" } })
        { action := "opened", issue := some { number := 1, title := "T", node_id := "N" } }).threads.countP
        (fun t => t.number == some 1) = 1)
  ∧ GitHubWebhookHandlers.handleIssueOpened "t2"
      (GitHubWebhookHandlers.handleIssueOpened "t1" {}
        { action := "opened", issue := some { number := 1, title := "T", node_id := "N" } })
      { action := "opened", issue := some { number := 1, title := "T", node_id := "N" } } =
    GitHubWebhookHandlers.handleIssueOpened "t1" {}
      { action := "opened", issue := some { number := 1, title := "T", node_id := "N" } } :=
  ⟨rfl, by decide,
    (handleIssueOpened_idempotent "t1" "t2" {}
      { action := "opened", issue := some { number := 1, title := "T", node_id := "N" } }
      { number := 1, title := "T", node_id := "N" } rfl (by decide)).1,
    (handleIssueOpened_idempotent "t1" "t2" {}
      { action := "opened", issue := some { number := 1, title := "T", node_id := "N" } }
      { number := 1, title := "T", node_id := "N" } rfl (by decide)).2⟩

/-- Claim C3 counterexample: on a (degenerate) store already holding two
threads correlated to issue 42, processing the payload twice leaves two
correlated threads, not exactly one — the claim quantified over every
store state fails. -/
theorem handleIssueOpened_idempotent_counterexample :
    ((GitHubWebhookHandlers.handleIssueOpened "t2"
        (GitHubWebhookHandlers.handleIssueOpened "t1"
          { threads := [{ id := "a", title := "x", number := some 42 },
                        { id := "b", title := "y", number := some 42 }] }
          { action := "opened", issue := some { number := 42, title := "x", node_id := "N" } })
        { action := "opened",
          issue := some { number := 42, title := "x", node_id := "N" } }).threads.countP
      (fun t => t.number == some 42)) = 2 := by decide

/-! ## Claim C4 — comment round trip -/

theorem comp_pred_upsert (tid : String) (c : Comment) :
    ((fun t : Thread => t.id == tid) ∘ (fun t : Thread => if t.id == tid then
      { t with comments := t.comments ++ [c] } else t)) =
    fun t : Thread => t.id == tid := by
  funext t
  by_cases h : t.id = tid
  · simp [h]
  · simp [h]

theorem upsert_comment_find (l : List Thread) (tid : String) (c : Comment)
    (thr : Thread) (h : l.find? (fun t => t.id == tid) = some thr) :
    (l.map (fun t => if t.id == tid then
        { t with comments := t.comments ++ [c] } else t)).find?
      (fun t => t.id == tid) =
    some { thr with comments := thr.comments ++ [c] } := by
  have hthr : thr.id = tid := by simpa using List.find?_some h
  rw [List.find?_map, comp_pred_upsert, h]
  simp [hthr]

theorem handleIssueCommentDeleted_noop (store : EnhancedStore) (payload : WebhookPayload) :
    GitHubWebhookHandlers.handleIssueCommentDeleted store payload =
      { store := store, deletedMessageIds := [], createdMessageIds := [] } := by
  unfold GitHubWebhookHandlers.handleIssueCommentDeleted
  repeat' split
  all_goals rfl

/-- Claim C4 (amended): a chat message on a linked thread creates a tracker
comment and records the correlation row `{message_id, git_id}` in that
thread's comment list; the subsequent tracker-side "comment deleted" event
for that `git_id`, however, removes nothing: the handler locates the row
and only logs, leaving the correlation row in place and deleting no
mirrored chat message (tracker-side deletion sync is not implemented). -/
theorem commentRoundTrip (gid : Nat) (store : EnhancedStore) (tid : String)
    (msg : DiscordMessage) (thr : Thread)
    (hfind : store.threads.find? (fun t => t.id == tid) = some thr)
    (hnum : jsTruthyNat thr.number = true) :
    (∃ t1, (createIssueComment gid store tid msg).threads.find?
        (fun t => t.id == tid) = some t1 ∧
      t1.comments = thr.comments ++ [{ id := msg.id, git_id := gid }])
  ∧ (∀ payload, GitHubWebhookHandlers.handleIssueCommentDeleted
      (createIssueComment gid store tid msg) payload =
      { store := createIssueComment gid store tid msg,
        deletedMessageIds := [], createdMessageIds := [] }) := by
  constructor
  · have hstep : (createIssueComment gid store tid msg).threads =
        store.threads.map (fun t => if t.id == tid then
          { t with comments := t.comments ++ [{ id := msg.id, git_id := gid }] }
        else t) := by
      simp [createIssueComment, hfind, hnum]
    refine ⟨{ thr with comments := thr.comments ++ [{ id := msg.id, git_id := gid }] },
      ?_, rfl⟩
    rw [hstep]
    exact upsert_comment_find store.threads tid _ thr hfind
  · intro payload
    exact handleIssueCommentDeleted_noop _ payload

/-- Witness for C4: issuing a chat message on the linked thread records the
row `{m1, 100}`; the tracker-side delete for git id 100 then leaves
everything in place. -/
theorem commentRoundTrip_witness :
    ({ threads := [{ id := "thr1", title := "T", number := some 7,
                     node_id := some "N7" }] } : EnhancedStore).threads.find?
        (fun t => t.id == "thr1") =
      some { id := "thr1", title := "T", number := some 7, node_id := some "N7" }
  ∧ jsTruthyNat ({ id := "thr1", title := "T", number := some 7,
                   node_id := some "N7" } : Thread).number = true
  ∧ ((∃ t1, (createIssueComment 100
        { threads := [{ id := "thr1", title := "T", number := some 7,
                        node_id := some "N7" }] }
        "thr1" { id := "m1", content := "hello" }).threads.find?
          (fun t => t.id == "thr1") = some t1 ∧
        t1.comments = ({ id := "thr1", title := "T", number := some 7,
                         node_id := some "N7" } : Thread).comments ++
          [{ id := "m1", git_id := 100 }])
    ∧ (∀ payload, GitHubWebhookHandlers.handleIssueCommentDeleted
        (createIssueComment 100
          { threads := [{ id := "thr1", title := "T", number := some 7,
                          node_id := some "N7" }] }
          "thr1" { id := "m1", content := "hello" }) payload =
        { store := createIssueComment 100
            { threads := [{ id := "thr1", title := "T", number := some 7,
                            node_id := some "N7" }] }
            "thr1" { id := "m1", content := "hello" },
          deletedMessageIds := [], createdMessageIds := [] })) :=
  ⟨by decide, by decide,
    commentRoundTrip 100
      { threads := [{ id := "thr1", title := "T", number := some 7,
                      node_id := some "N7" }] }
      "thr1" { id := "m1", content := "hello" }
      { id := "thr1", title := "T", number := some 7, node_id := some "N7" }
      (by decide) (by decide)⟩

/-- Claim C4 counterexample: after the chat message is mirrored with row
`{m1, 100}`, the tracker-side "comment deleted" event for git id 100
deletes no chat message and the correlation row is still present — the
claimed removal does not happen. -/
theorem commentRoundTrip_counterexample :
    let store1 := createIssueComment 100
      { threads := [{ id := "thr1", title := "T", number := some 7,
                      node_id := some "N7" }] }
      "thr1" { id := "m1", content := "hello" }
    let payload : WebhookPayload :=
      { action := "deleted",
        issue := some { number := 7, title := "T", node_id := "N7" },
        comment := some { id := 100 } }
    let out := GitHubWebhookHandlers.handleIssueCommentDeleted store1 payload
    out.deletedMessageIds = [] ∧
      out.store.threads.map Thread.comments = [[{ id := "m1", git_id := 100 }]] :=
  ⟨rfl, rfl⟩

/-! ## Claim C10 — addThread is a duplicate-free upsert -/

theorem addThreadList_countP (l : List Thread) (t : Thread)
    (hids : (l.map Thread.id).Nodup) :
    (addThreadList l t).countP (fun u => u.id == t.id) = 1 := by
  induction l with
  | nil => simp [addThreadList]
  | cons a rest ih =>
    rw [List.map_cons, List.nodup_cons] at hids
    by_cases ha : (a.id == t.id) = true
    · have ha' : a.id = t.id := by simpa using ha
      have hzero : rest.countP (fun u => u.id == t.id) = 0 := by
        rw [List.countP_eq_zero]
        intro u hu hut
        have hut' : u.id = t.id := by simpa using hut
        have hmem : u.id ∈ rest.map Thread.id := List.mem_map_of_mem Thread.id hu
        rw [hut', ← ha'] at hmem
        exact hids.1 hmem
      simp [addThreadList, ha, List.countP_cons, hzero, mergeThread]
    · have ha2 : (a.id == t.id) = false := by simpa using ha
      simp [addThreadList, ha2, List.countP_cons, ih hids.2]

theorem addThreadList_find_update (l : List Thread) (t ex : Thread)
    (hfind : l.find? (fun u => u.id == t.id) = some ex) :
    (addThreadList l t).find? (fun u => u.id == t.id) = some (mergeThread ex t) := by
  induction l with
  | nil => simp [List.find?] at hfind
  | cons a rest ih =>
    by_cases ha : (a.id == t.id) = true
    · simp only [List.find?_cons, ha] at hfind
      injection hfind with hfind
      subst hfind
      simp [addThreadList, ha, List.find?_cons, mergeThread]
    · have ha2 : (a.id == t.id) = false := by simpa using ha
      simp only [List.find?_cons, ha2] at hfind
      simpa [addThreadList, ha2, List.find?_cons] using ih hfind

theorem mergeThread_comments_nodup (ex t : Thread)
    (h1 : (ex.comments.map Comment.id).Nodup)
    (h2 : (t.comments.map Comment.id).Nodup) :
    ((mergeThread ex t).comments.map Comment.id).Nodup := by
  have hsub : List.Sublist (t.comments.filter
      (fun nc => !(ex.comments.any (fun c => c.id == nc.id)))) t.comments :=
    List.filter_sublist _
  have h2f : ((t.comments.filter
      (fun nc => !(ex.comments.any (fun c => c.id == nc.id)))).map Comment.id).Nodup :=
    (hsub.map Comment.id).nodup h2
  simp only [mergeThread, List.map_append]
  rw [List.nodup_append]
  refine ⟨h1, h2f, ?_⟩
  intro x hx1 hx2
  rcases List.mem_map.mp hx1 with ⟨c1, hc1, rfl⟩
  rcases List.mem_map.mp hx2 with ⟨c2, hc2, hid⟩
  rcases List.mem_filter.mp hc2 with ⟨_, hcond⟩
  have hfalse : ex.comments.any (fun c => c.id == c2.id) = false := by
    simpa using hcond
  have hall := List.any_eq_false.mp hfalse c1 hc1
  apply hall
  simp [hid]

theorem mergeThread_mem_left (ex t : Thread) (c : Comment) (hc : c ∈ ex.comments) :
    c ∈ (mergeThread ex t).comments := by
  simp only [mergeThread, List.mem_append]
  exact Or.inl hc

theorem mergeThread_mem_right (ex t : Thread) (c : Comment) (hc : c ∈ t.comments) :
    ∃ c2 ∈ (mergeThread ex t).comments, c2.id = c.id := by
  by_cases h : (ex.comments.any (fun c0 => c0.id == c.id)) = true
  · rcases List.any_eq_true.mp h with ⟨c0, hc0, hidc⟩
    refine ⟨c0, ?_, by simpa using hidc⟩
    simp only [mergeThread, List.mem_append]
    exact Or.inl hc0
  · have hfalse : ex.comments.any (fun c0 => c0.id == c.id) = false := by
      simpa using h
    refine ⟨c, ?_, rfl⟩
    simp only [mergeThread, List.mem_append]
    refine Or.inr (List.mem_filter.mpr ⟨hc, ?_⟩)
    simp [hfalse]

/-- Claim C10 (amended): on a well-formed store — distinct thread ids, and
duplicate-free comment ids in each stored list and in the incoming
thread's list — `EnhancedStore.addThread` is a duplicate-free upsert:
afterwards exactly one thread carries `t.id`; if a thread with that id
existed, the updated record keeps the existing `number` / `node_id` /
`body` whenever `t` lacks them, and the two comment lists are merged with
no two comments sharing a chat-message id, keeping every existing comment
and an id-representative of every incoming one. -/
theorem addThread_upsert (s : EnhancedStore) (t : Thread)
    (hids : (s.threads.map Thread.id).Nodup)
    (hcs : ∀ u ∈ s.threads, (u.comments.map Comment.id).Nodup)
    (htc : (t.comments.map Comment.id).Nodup) :
    ((s.addThread t).threads.countP (fun u => u.id == t.id) = 1)
  ∧ (∀ ex, s.threads.find? (fun u => u.id == t.id) = some ex →
      ∃ u, (s.addThread t).threads.find? (fun v => v.id == t.id) = some u ∧
        (t.number = none → u.number = ex.number) ∧
        (t.node_id = none → u.node_id = ex.node_id) ∧
        (t.body = none → u.body = ex.body) ∧
        (u.comments.map Comment.id).Nodup ∧
        (∀ c ∈ ex.comments, c ∈ u.comments) ∧
        (∀ c ∈ t.comments, ∃ c2 ∈ u.comments, c2.id = c.id)) := by
  have hthreads : (s.addThread t).threads = addThreadList s.threads t := rfl
  constructor
  · rw [hthreads]
    exact addThreadList_countP s.threads t hids
  · intro ex hex
    have hexmem : ex ∈ s.threads := List.mem_of_find?_eq_some hex
    refine ⟨mergeThread ex t, ?_, ?_, ?_, ?_, ?_, ?_, ?_⟩
    · rw [hthreads]
      exact addThreadList_find_update s.threads t ex hex
    · intro h; simp [mergeThread, h, jsOrNat]
    · intro h; simp [mergeThread, h, jsOrStr]
    · intro h; simp [mergeThread, h, jsOrStr]
    · exact mergeThread_comments_nodup ex t (hcs ex hexmem) htc
    · intro c hc; exact mergeThread_mem_left ex t c hc
    · intro c hc; exact mergeThread_mem_right ex t c hc

/-- Witness for C10: upserting a thread that lacks `number`, `node_id` and
`body` onto a store already holding its id keeps the GitHub fields and
merges the comment lists without duplicates. -/
theorem addThread_upsert_witness :
    ((({ threads := [{ id := "x", title := "t1", body := some "B",
                       number := some 5, node_id := some "N",
                       comments := [{ id := "a", git_id := 1 }] }] } :
        EnhancedStore).threads.map Thread.id).Nodup)
  ∧ (∀ u ∈ ({ threads := [{ id := "x", title := "t1", body := some "B",
                            number := some 5, node_id := some "N",
                            comments := [{ id := "a", git_id := 1 }] }] } :
        EnhancedStore).threads, (u.comments.map Comment.id).Nodup)
  ∧ ((({ id := "x", title := "t2",
         comments := [{ id := "b", git_id := 2 }] } : Thread).comments.map
        Comment.id).Nodup)
  ∧ ((({ threads := [{ id := "x", title := "t1", body := some "B",
                       number := some 5, node_id := some "N",
                       comments := [{ id := "a", git_id := 1 }] }] } :
        EnhancedStore).addThread
      { id := "x", title := "t2",
        comments := [{ id := "b", git_id := 2 }] }).threads.countP
      (fun u => u.id == "x") = 1) :=
  ⟨by decide, by decide, by decide,
    (addThread_upsert
      { threads := [{ id := "x", title := "t1", body := some "B",
                      number := some 5, node_id := some "N",
                      comments := [{ id := "a", git_id := 1 }] }] }
      { id := "x", title := "t2", comments := [{ id := "b", git_id := 2 }] }
      (by decide) (by decide) (by decide)).1⟩

/-- Claim C10 counterexample: on a store already holding two threads with
id `x` and an incoming thread whose comment list repeats the message id
`a`, `addThread` leaves two threads with id `x` and a merged comment list
with two comments sharing a chat-message id — the claim quantified over
every store state and thread fails. -/
theorem addThread_upsert_counterexample :
    let s : EnhancedStore :=
      { threads := [{ id := "x", title := "t1" }, { id := "x", title := "t2" }] }
    let t : Thread :=
      { id := "x", title := "t3",
        comments := [{ id := "a", git_id := 1 }, { id := "a", git_id := 2 }] }
    ((s.addThread t).threads.countP (fun u => u.id == "x") = 2)
  ∧ ¬ ((((s.addThread t).threads.head?.map Thread.comments).getD []).map
        Comment.id).Nodup :=
  ⟨by decide, by decide⟩

/-! ## Claim C8 — executeWithRetry -/

/-- The sequence of waits produced by the loop when started with backoff
`d0`: the first wait is `d0` itself; each later one applies `stepDelay`. -/
def delaySeq (opts : RetryOptions) (d0 : Nat) : Nat → Nat
  | 0 => d0
  | i + 1 => delaySeq opts (stepDelay opts d0) i

theorem delaySeq_le (opts : RetryOptions) :
    ∀ i d0, d0 ≤ opts.maxDelay → delaySeq opts d0 i ≤ opts.maxDelay := by
  intro i
  induction i with
  | zero => intro d0 h; exact h
  | succ n ih =>
    intro d0 h
    exact ih (stepDelay opts d0) (min_le_right _ _)

theorem handleError_counts (m : List (String × ErrorMetrics)) (mappingId e : String)
    (now : Nat) :
    totalOf (IsolatedErrorHandler.handleError m mappingId e now) mappingId =
      totalOf m mappingId + 1
  ∧ consecutiveOf (IsolatedErrorHandler.handleError m mappingId e now) mappingId =
      consecutiveOf m mappingId + 1
  ∧ lastErrorTimeOf (IsolatedErrorHandler.handleError m mappingId e now) mappingId =
      some now
  ∧ typeCountOf (IsolatedErrorHandler.handleError m mappingId e now) mappingId
      (errName e) = typeCountOf m mappingId (errName e) + 1 := by
  refine ⟨?_, ?_, ?_, ?_⟩ <;>
    simp [IsolatedErrorHandler.handleError, totalOf, consecutiveOf, lastErrorTimeOf,
      typeCountOf, getOrCreateMetrics, alGet_alSet_self]

theorem recordSuccess_consecutive (m : List (String × ErrorMetrics)) (mappingId : String) :
    consecutiveOf (IsolatedErrorHandler.recordSuccess m mappingId) mappingId = 0 := by
  unfold IsolatedErrorHandler.recordSuccess
  cases h : alGet m mappingId with
  | none => simp [consecutiveOf, getOrCreateMetrics, h]
  | some metrics => simp [consecutiveOf, getOrCreateMetrics, alGet_alSet_self]

theorem recordSuccess_total (m : List (String × ErrorMetrics)) (mappingId : String) :
    totalOf (IsolatedErrorHandler.recordSuccess m mappingId) mappingId =
      totalOf m mappingId := by
  unfold IsolatedErrorHandler.recordSuccess
  cases h : alGet m mappingId with
  | none => rfl
  | some metrics => simp [totalOf, getOrCreateMetrics, alGet_alSet_self, h]

theorem retryLoop_none_eq (opts : RetryOptions) (outcomes : Nat → Option String)
    (mappingId : String) (now attempt delay remaining : Nat)
    (m : List (String × ErrorMetrics)) (h : outcomes attempt = none) :
    retryLoop opts outcomes mappingId now attempt delay remaining m =
      { metrics := IsolatedErrorHandler.recordSuccess m mappingId,
        attempts := 1, waits := [], thrown := none } := by
  rw [retryLoop, h]

theorem retryLoop_some_zero_eq (opts : RetryOptions) (outcomes : Nat → Option String)
    (mappingId : String) (now attempt delay : Nat)
    (m : List (String × ErrorMetrics)) (e : String) (h : outcomes attempt = some e) :
    retryLoop opts outcomes mappingId now attempt delay 0 m =
      { metrics := IsolatedErrorHandler.handleError m mappingId e now,
        attempts := 1, waits := [], thrown := some e } := by
  rw [retryLoop, h]

theorem retryLoop_some_succ_proj (opts : RetryOptions) (outcomes : Nat → Option String)
    (mappingId : String) (now attempt delay r : Nat)
    (m : List (String × ErrorMetrics)) (e : String) (h : outcomes attempt = some e) :
    (retryLoop opts outcomes mappingId now attempt delay (r + 1) m).thrown =
      (retryLoop opts outcomes mappingId now (attempt + 1)
        (min (delay * opts.backoffMultiplier) opts.maxDelay) r
        (IsolatedErrorHandler.handleError m mappingId e now)).thrown
  ∧ (retryLoop opts outcomes mappingId now attempt delay (r + 1) m).attempts =
      (retryLoop opts outcomes mappingId now (attempt + 1)
        (min (delay * opts.backoffMultiplier) opts.maxDelay) r
        (IsolatedErrorHandler.handleError m mappingId e now)).attempts + 1
  ∧ (retryLoop opts outcomes mappingId now attempt delay (r + 1) m).waits =
      delay :: (retryLoop opts outcomes mappingId now (attempt + 1)
        (min (delay * opts.backoffMultiplier) opts.maxDelay) r
        (IsolatedErrorHandler.handleError m mappingId e now)).waits
  ∧ (retryLoop opts outcomes mappingId now attempt delay (r + 1) m).metrics =
      (retryLoop opts outcomes mappingId now (attempt + 1)
        (min (delay * opts.backoffMultiplier) opts.maxDelay) r
        (IsolatedErrorHandler.handleError m mappingId e now)).metrics := by
  rw [retryLoop, h]
  exact ⟨rfl, rfl, rfl, rfl⟩

theorem retryLoop_attempts_le (opts : RetryOptions) (outcomes : Nat → Option String)
    (mappingId : String) (now : Nat) :
    ∀ remaining attempt delay m,
      (retryLoop opts outcomes mappingId now attempt delay remaining m).attempts ≤
        remaining + 1 := by
  intro remaining
  induction remaining with
  | zero =>
    intro attempt delay m
    cases h : outcomes attempt with
    | none => rw [retryLoop_none_eq opts outcomes mappingId now attempt delay 0 m h]
    | some e => rw [retryLoop_some_zero_eq opts outcomes mappingId now attempt delay m e h]
  | succ r ih =>
    intro attempt delay m
    cases h : outcomes attempt with
    | none =>
      rw [retryLoop_none_eq opts outcomes mappingId now attempt delay (r + 1) m h]
      show (1 : Nat) ≤ r + 1 + 1
      omega
    | some e =>
      rw [(retryLoop_some_succ_proj opts outcomes mappingId now attempt delay r m e h).2.1]
      have hle := ih (attempt + 1) (min (delay * opts.backoffMultiplier) opts.maxDelay)
        (IsolatedErrorHandler.handleError m mappingId e now)
      omega

theorem retryLoop_waits_mem (opts : RetryOptions) (outcomes : Nat → Option String)
    (mappingId : String) (now : Nat) :
    ∀ remaining attempt delay m w,
      w ∈ (retryLoop opts outcomes mappingId now attempt delay remaining m).waits →
      ∃ i, w = delaySeq opts delay i := by
  intro remaining
  induction remaining with
  | zero =>
    intro attempt delay m w hw
    cases h : outcomes attempt with
    | none =>
      rw [retryLoop_none_eq opts outcomes mappingId now attempt delay 0 m h] at hw
      simp at hw
    | some e =>
      rw [retryLoop_some_zero_eq opts outcomes mappingId now attempt delay m e h] at hw
      simp at hw
  | succ r ih =>
    intro attempt delay m w hw
    cases h : outcomes attempt with
    | none =>
      rw [retryLoop_none_eq opts outcomes mappingId now attempt delay (r + 1) m h] at hw
      simp at hw
    | some e =>
      rw [(retryLoop_some_succ_proj opts outcomes mappingId now attempt delay r m e
        h).2.2.1] at hw
      rcases List.mem_cons.mp hw with rfl | hw
      · exact ⟨0, rfl⟩
      · rcases ih (attempt + 1) (min (delay * opts.backoffMultiplier) opts.maxDelay)
          (IsolatedErrorHandler.handleError m mappingId e now) w hw with ⟨i, hi⟩
        exact ⟨i + 1, hi⟩

theorem retryLoop_allFail (opts : RetryOptions) (outcomes : Nat → Option String)
    (mappingId : String) (now : Nat) :
    ∀ remaining attempt delay m,
      (∀ k, k ≤ remaining → (outcomes (attempt + k)).isSome) →
      (retryLoop opts outcomes mappingId now attempt delay remaining m).thrown =
        outcomes (attempt + remaining)
    ∧ (retryLoop opts outcomes mappingId now attempt delay remaining m).attempts =
        remaining + 1
    ∧ (retryLoop opts outcomes mappingId now attempt delay remaining m).waits =
        (List.range remaining).map (delaySeq opts delay)
    ∧ totalOf (retryLoop opts outcomes mappingId now attempt delay remaining m).metrics
        mappingId = totalOf m mappingId + (remaining + 1)
    ∧ consecutiveOf
        (retryLoop opts outcomes mappingId now attempt delay remaining m).metrics
        mappingId = consecutiveOf m mappingId + (remaining + 1) := by
  intro remaining
  induction remaining with
  | zero =>
    intro attempt delay m hall
    have h0 := hall 0 (Nat.le_refl 0)
    rcases Option.isSome_iff_exists.mp h0 with ⟨e, he⟩
    rw [Nat.add_zero] at he
    rw [retryLoop_some_zero_eq opts outcomes mappingId now attempt delay m e he]
    have hc := handleError_counts m mappingId e now
    exact ⟨by rw [Nat.add_zero, he], rfl, rfl, by rw [hc.1], by rw [hc.2.1]⟩
  | succ r ih =>
    intro attempt delay m hall
    have h0 := hall 0 (Nat.zero_le _)
    rcases Option.isSome_iff_exists.mp h0 with ⟨e, he⟩
    rw [Nat.add_zero] at he
    have hshift : ∀ k, k ≤ r → (outcomes (attempt + 1 + k)).isSome := by
      intro k hk
      have hh := hall (k + 1) (by omega)
      have harg : attempt + (k + 1) = attempt + 1 + k := by omega
      rwa [harg] at hh
    have hrec := ih (attempt + 1) (min (delay * opts.backoffMultiplier) opts.maxDelay)
      (IsolatedErrorHandler.handleError m mappingId e now) hshift
    have hc := handleError_counts m mappingId e now
    have hproj := retryLoop_some_succ_proj opts outcomes mappingId now attempt delay r m e he
    have harg2 : attempt + 1 + r = attempt + (r + 1) := by omega
    refine ⟨?_, ?_, ?_, ?_, ?_⟩
    · rw [hproj.1, hrec.1, harg2]
    · rw [hproj.2.1, hrec.2.1]
    · rw [hproj.2.2.1, hrec.2.2.1, List.range_succ_eq_map, List.map_cons, List.map_map]
      rfl
    · rw [hproj.2.2.2, hrec.2.2.2.1, hc.1]
      omega
    · rw [hproj.2.2.2, hrec.2.2.2.2, hc.2.1]
      omega

theorem retryLoop_success (opts : RetryOptions) (outcomes : Nat → Option String)
    (mappingId : String) (now : Nat) :
    ∀ k remaining attempt delay m,
      k ≤ remaining →
      outcomes (attempt + k) = none →
      (∀ j, j < k → (outcomes (attempt + j)).isSome) →
      (retryLoop opts outcomes mappingId now attempt delay remaining m).thrown = none
    ∧ (retryLoop opts outcomes mappingId now attempt delay remaining m).attempts = k + 1
    ∧ (retryLoop opts outcomes mappingId now attempt delay remaining m).waits =
        (List.range k).map (delaySeq opts delay)
    ∧ consecutiveOf
        (retryLoop opts outcomes mappingId now attempt delay remaining m).metrics
        mappingId = 0
    ∧ totalOf (retryLoop opts outcomes mappingId now attempt delay remaining m).metrics
        mappingId = totalOf m mappingId + k := by
  intro k
  induction k with
  | zero =>
    intro remaining attempt delay m _ hnone _
    rw [Nat.add_zero] at hnone
    rw [retryLoop_none_eq opts outcomes mappingId now attempt delay remaining m hnone]
    exact ⟨rfl, rfl, rfl, recordSuccess_consecutive m mappingId,
      recordSuccess_total m mappingId⟩
  | succ n ih =>
    intro remaining attempt delay m hk hnone hsome
    have h0 := hsome 0 (Nat.succ_pos n)
    rcases Option.isSome_iff_exists.mp h0 with ⟨e, he⟩
    rw [Nat.add_zero] at he
    cases remaining with
    | zero => omega
    | succ r =>
      have hshiftn : outcomes (attempt + 1 + n) = none := by
        have harg : attempt + 1 + n = attempt + (n + 1) := by omega
        rw [harg]; exact hnone
      have hshifts : ∀ j, j < n → (outcomes (attempt + 1 + j)).isSome := by
        intro j hj
        have hh := hsome (j + 1) (by omega)
        have harg : attempt + (j + 1) = attempt + 1 + j := by omega
        rwa [harg] at hh
      have hrec := ih r (attempt + 1)
        (min (delay * opts.backoffMultiplier) opts.maxDelay)
        (IsolatedErrorHandler.handleError m mappingId e now)
        (by omega) hshiftn hshifts
      have hc := handleError_counts m mappingId e now
      have hproj := retryLoop_some_succ_proj opts outcomes mappingId now attempt delay
        r m e he
      refine ⟨?_, ?_, ?_, ?_, ?_⟩
      · rw [hproj.1, hrec.1]
      · rw [hproj.2.1, hrec.2.1]
      · rw [hproj.2.2.1, hrec.2.2.1, List.range_succ_eq_map, List.map_cons, List.map_map]
        rfl
      · rw [hproj.2.2.2, hrec.2.2.2.1]
      · rw [hproj.2.2.2, hrec.2.2.2.2, hc.1]
        omega

theorem delaySeq_succ (opts : RetryOptions) :
    ∀ i d0, delaySeq opts d0 (i + 1) = stepDelay opts (delaySeq opts d0 i) := by
  intro i
  induction i with
  | zero => intro d0; rfl
  | succ n ih => intro d0; exact ih (stepDelay opts d0)

/-- Claim C8 (amended): `executeWithRetry` invokes `fn` at most
`maxRetries + 1` times; every failure is recorded against the mapping id
(total, consecutive and per-error-name counters incremented, timestamp
set); the waits follow the backoff recurrence — first `initialDelay`,
then `min(previous * backoffMultiplier, maxDelay)` — and, provided
`initialDelay ≤ maxDelay`, never exceed `maxDelay`; if every attempt
fails, `fn` runs exactly `maxRetries + 1` times, the `maxRetries` waits
are the successive backoff values and the last error is the one thrown;
on a first success at attempt `k` the loop stops after `k + 1`
invocations, the consecutive-error counter is reset to zero and the
historical total is the pre-call total plus the `k` failures. -/
theorem executeWithRetry_spec (opts : RetryOptions) (outcomes : Nat → Option String)
    (mappingId : String) (now : Nat) (m : List (String × ErrorMetrics))
    (hInit : opts.initialDelay ≤ opts.maxDelay) :
    ((IsolatedErrorHandler.executeWithRetry opts outcomes mappingId now m).attempts ≤
      opts.maxRetries + 1)
  ∧ (∀ m0 e,
      totalOf (IsolatedErrorHandler.handleError m0 mappingId e now) mappingId =
        totalOf m0 mappingId + 1
    ∧ consecutiveOf (IsolatedErrorHandler.handleError m0 mappingId e now) mappingId =
        consecutiveOf m0 mappingId + 1
    ∧ lastErrorTimeOf (IsolatedErrorHandler.handleError m0 mappingId e now) mappingId =
        some now
    ∧ typeCountOf (IsolatedErrorHandler.handleError m0 mappingId e now) mappingId
        (errName e) = typeCountOf m0 mappingId (errName e) + 1)
  ∧ (∀ w ∈ (IsolatedErrorHandler.executeWithRetry opts outcomes mappingId now m).waits,
      w ≤ opts.maxDelay)
  ∧ (delaySeq opts opts.initialDelay 0 = opts.initialDelay
    ∧ ∀ i, delaySeq opts opts.initialDelay (i + 1) =
        min (delaySeq opts opts.initialDelay i * opts.backoffMultiplier) opts.maxDelay)
  ∧ ((∀ k, k ≤ opts.maxRetries → (outcomes k).isSome) →
      (IsolatedErrorHandler.executeWithRetry opts outcomes mappingId now m).thrown =
        outcomes opts.maxRetries
    ∧ (IsolatedErrorHandler.executeWithRetry opts outcomes mappingId now m).attempts =
        opts.maxRetries + 1
    ∧ (IsolatedErrorHandler.executeWithRetry opts outcomes mappingId now m).waits =
        (List.range opts.maxRetries).map (delaySeq opts opts.initialDelay)
    ∧ totalOf (IsolatedErrorHandler.executeWithRetry opts outcomes mappingId
        now m).metrics mappingId = totalOf m mappingId + (opts.maxRetries + 1)
    ∧ consecutiveOf (IsolatedErrorHandler.executeWithRetry opts outcomes mappingId
        now m).metrics mappingId = consecutiveOf m mappingId + (opts.maxRetries + 1))
  ∧ (∀ k, k ≤ opts.maxRetries → outcomes k = none →
      (∀ j, j < k → (outcomes j).isSome) →
      (IsolatedErrorHandler.executeWithRetry opts outcomes mappingId now m).thrown = none
    ∧ (IsolatedErrorHandler.executeWithRetry opts outcomes mappingId now m).attempts =
        k + 1
    ∧ consecutiveOf (IsolatedErrorHandler.executeWithRetry opts outcomes mappingId
        now m).metrics mappingId = 0
    ∧ totalOf (IsolatedErrorHandler.executeWithRetry opts outcomes mappingId
        now m).metrics mappingId = totalOf m mappingId + k) := by
  have hdef : IsolatedErrorHandler.executeWithRetry opts outcomes mappingId now m =
      retryLoop opts outcomes mappingId now 0 opts.initialDelay opts.maxRetries m := rfl
  refine ⟨?_, ?_, ?_, ⟨rfl, ?_⟩, ?_, ?_⟩
  · rw [hdef]
    exact retryLoop_attempts_le opts outcomes mappingId now _ _ _ _
  · intro m0 e
    exact handleError_counts m0 mappingId e now
  · intro w hw
    rw [hdef] at hw
    rcases retryLoop_waits_mem opts outcomes mappingId now _ _ _ _ w hw with ⟨i, rfl⟩
    exact delaySeq_le opts i opts.initialDelay hInit
  · intro i
    exact delaySeq_succ opts i opts.initialDelay
  · intro hall
    have hall2 : ∀ k, k ≤ opts.maxRetries → (outcomes (0 + k)).isSome := by
      intro k hk
      rw [Nat.zero_add]
      exact hall k hk
    have h := retryLoop_allFail opts outcomes mappingId now opts.maxRetries 0
      opts.initialDelay m hall2
    rw [Nat.zero_add] at h
    rw [hdef]
    exact h
  · intro k hk hnone hsome
    have hnone2 : outcomes (0 + k) = none := by
      rw [Nat.zero_add]; exact hnone
    have hsome2 : ∀ j, j < k → (outcomes (0 + j)).isSome := by
      intro j hj
      rw [Nat.zero_add]
      exact hsome j hj
    have h := retryLoop_success opts outcomes mappingId now k opts.maxRetries 0
      opts.initialDelay m hk hnone2 hsome2
    rw [hdef]
    exact ⟨h.1, h.2.1, h.2.2.2.1, h.2.2.2.2⟩

/-- Witness for C8: with retry limit 2, one failing attempt followed by a
success stops after 2 invocations, resets the consecutive counter and
leaves the historical total at 1. -/
theorem executeWithRetry_spec_witness :
    (10 : Nat) ≤ 1000
  ∧ ((IsolatedErrorHandler.executeWithRetry
        { maxRetries := 2, initialDelay := 10, maxDelay := 1000, backoffMultiplier := 3 }
        (fun k => if k = 0 then some "E" else none) "m1" 5 []).thrown = none
    ∧ (IsolatedErrorHandler.executeWithRetry
        { maxRetries := 2, initialDelay := 10, maxDelay := 1000, backoffMultiplier := 3 }
        (fun k => if k = 0 then some "E" else none) "m1" 5 []).attempts = 1 + 1
    ∧ consecutiveOf (IsolatedErrorHandler.executeWithRetry
        { maxRetries := 2, initialDelay := 10, maxDelay := 1000, backoffMultiplier := 3 }
        (fun k => if k = 0 then some "E" else none) "m1" 5 []).metrics "m1" = 0
    ∧ totalOf (IsolatedErrorHandler.executeWithRetry
        { maxRetries := 2, initialDelay := 10, maxDelay := 1000, backoffMultiplier := 3 }
        (fun k => if k = 0 then some "E" else none) "m1" 5 []).metrics "m1" =
        totalOf [] "m1" + 1) :=
  ⟨by decide,
    (executeWithRetry_spec
      { maxRetries := 2, initialDelay := 10, maxDelay := 1000, backoffMultiplier := 3 }
      (fun k => if k = 0 then some "E" else none) "m1" 5 [] (by decide)).2.2.2.2.2 1
      (by decide) (by decide)
      (fun j hj => by
        have hj0 : j = 0 := by omega
        subst hj0
        decide)⟩

/-- Claim C8 counterexample: with `initialDelay = 50000 > maxDelay = 30000`
the single wait before the retry is 50000 milliseconds — the waited delay
is never clamped on the first wait, so it exceeds the configured maximum,
contradicting the claim as stated. -/
theorem executeWithRetry_counterexample :
    (IsolatedErrorHandler.executeWithRetry
      { maxRetries := 1, initialDelay := 50000, maxDelay := 30000,
        backoffMultiplier := 2 }
      (fun _ => some "E") "m1" 0 []).waits = [50000]
  ∧ ¬ (50000 : Nat) ≤ 30000 :=
  ⟨by decide, by decide⟩

/-! ## Claim C1 — circuit breaker -/

theorem execute_open_fastfail (cfg : BreakerConfig) (now2 : Nat) (s : CircuitState)
    (t : Nat) (b : Bool) (hst : s.status = .opened) (hlf : s.lastFailureTime = some t)
    (hle : now2 - t ≤ cfg.resetTimeout) :
    MappingCircuitBreaker.execute cfg now2 s b =
      { result := .breakerOpenError, state := s, invoked := false } := by
  have hd : decide (cfg.resetTimeout < now2 - t) = false := by
    rw [decide_eq_false_iff_not]
    omega
  unfold MappingCircuitBreaker.execute
  rw [hlf]
  simp [hst, hd]

theorem execute_probe_success (cfg : BreakerConfig) (now2 : Nat) (s : CircuitState)
    (t : Nat) (hst : s.status = .opened) (hlf : s.lastFailureTime = some t)
    (hgt : cfg.resetTimeout < now2 - t) :
    MappingCircuitBreaker.execute cfg now2 s true =
      { result := .ok,
        state := { status := .closed, failures := 0, lastFailureTime := none },
        invoked := true } := by
  have hd : decide (cfg.resetTimeout < now2 - t) = true := by
    rw [decide_eq_true_eq]
    exact hgt
  unfold MappingCircuitBreaker.execute MappingCircuitBreaker.runBody
  rw [hlf]
  simp [hst, hd]

theorem execute_probe_failure (cfg : BreakerConfig) (now2 : Nat) (s : CircuitState)
    (t : Nat) (hst : s.status = .opened) (hlf : s.lastFailureTime = some t)
    (hgt : cfg.resetTimeout < now2 - t) (hge : cfg.threshold ≤ s.failures) :
    MappingCircuitBreaker.execute cfg now2 s false =
      { result := .breakerOpenedError,
        state := { status := .opened, failures := s.failures + 1,
                   lastFailureTime := some now2 },
        invoked := true } := by
  have hd : decide (cfg.resetTimeout < now2 - t) = true := by
    rw [decide_eq_true_eq]
    exact hgt
  have hge2 : cfg.threshold ≤ s.failures + 1 := by omega
  unfold MappingCircuitBreaker.execute MappingCircuitBreaker.runBody
  rw [hlf]
  simp [hst, hd, hge2]

theorem failIter_closed (cfg : BreakerConfig) (now : Nat) :
    ∀ k, k < cfg.threshold →
      (failIter cfg now)^[k] {} =
        { status := .closed, failures := k,
          lastFailureTime := if k = 0 then none else some now } := by
  intro k
  induction k with
  | zero => intro _; rfl
  | succ n ih =>
    intro h
    rw [Function.iterate_succ_apply', ih (by omega)]
    have hlt : ¬ cfg.threshold ≤ n + 1 := by omega
    unfold failIter MappingCircuitBreaker.execute MappingCircuitBreaker.runBody
    simp [hlt]

/-- Claim C1: from a fresh state, N consecutive failures of the wrapped
operation (N = the configured threshold) open the breaker, each of those
calls invoking the operation; while open, a call whose elapsed time since
the last failure is within the reset timeout fails fast with the
breaker-open error, without invoking the wrapped function and without
changing state; once the reset timeout has elapsed the single probe call
runs the operation — success closes the breaker with the failure count
reset, failure re-opens it with a fresh failure timestamp (the
threshold ≤ failures hypothesis of the re-open case is an invariant of
every reachable open state, as the preservation conjunct shows), so any
further call within the reset timeout of the failed probe again fails
fast. -/
theorem circuitBreaker_spec (cfg : BreakerConfig) (now : Nat) (hN : 1 ≤ cfg.threshold) :
    (((failIter cfg now)^[cfg.threshold] {}).status = .opened
      ∧ ∀ k, k < cfg.threshold →
          (MappingCircuitBreaker.execute cfg now
            ((failIter cfg now)^[k] {}) false).invoked = true)
  ∧ (∀ s t now2 b, s.status = .opened → s.lastFailureTime = some t →
      now2 - t ≤ cfg.resetTimeout →
      MappingCircuitBreaker.execute cfg now2 s b =
        { result := .breakerOpenError, state := s, invoked := false })
  ∧ (∀ s t now2, s.status = .opened → s.lastFailureTime = some t →
      cfg.resetTimeout < now2 - t →
      (MappingCircuitBreaker.execute cfg now2 s true =
        { result := .ok,
          state := { status := .closed, failures := 0, lastFailureTime := none },
          invoked := true })
      ∧ (cfg.threshold ≤ s.failures →
          MappingCircuitBreaker.execute cfg now2 s false =
            { result := .breakerOpenedError,
              state := { status := .opened, failures := s.failures + 1,
                         lastFailureTime := some now2 },
              invoked := true }))
  ∧ (∀ s b now2, (s.status = .opened → cfg.threshold ≤ s.failures) →
      (MappingCircuitBreaker.execute cfg now2 s b).state.status = .opened →
      cfg.threshold ≤ (MappingCircuitBreaker.execute cfg now2 s b).state.failures)
  ∧ (∀ s t now2 now3 b, s.status = .opened → s.lastFailureTime = some t →
      cfg.resetTimeout < now2 - t → cfg.threshold ≤ s.failures →
      now3 - now2 ≤ cfg.resetTimeout →
      (MappingCircuitBreaker.execute cfg now3
        (MappingCircuitBreaker.execute cfg now2 s false).state b).invoked = false) := by
  refine ⟨⟨?_, ?_⟩, ?_, ?_, ?_, ?_⟩
  · have hpred : cfg.threshold - 1 < cfg.threshold := by omega
    have hiter : cfg.threshold = (cfg.threshold - 1) + 1 := by omega
    rw [hiter, Function.iterate_succ_apply', failIter_closed cfg now _ hpred]
    have hge : cfg.threshold ≤ (cfg.threshold - 1) + 1 := by omega
    unfold failIter MappingCircuitBreaker.execute MappingCircuitBreaker.runBody
    simp [hge]
  · intro k hk
    rw [failIter_closed cfg now k hk]
    unfold MappingCircuitBreaker.execute MappingCircuitBreaker.runBody
    by_cases hc : cfg.threshold ≤ k + 1 <;> simp [hc]
  · intro s t now2 b hst hlf hle
    exact execute_open_fastfail cfg now2 s t b hst hlf hle
  · intro s t now2 hst hlf hgt
    exact ⟨execute_probe_success cfg now2 s t hst hlf hgt,
      fun hge => execute_probe_failure cfg now2 s t hst hlf hgt hge⟩
  · intro s b now2 hinv
    rcases s with ⟨st, f, lf⟩
    unfold MappingCircuitBreaker.execute MappingCircuitBreaker.runBody
    cases st <;> cases b <;> cases lf <;>
      simp_all <;> split_ifs <;> simp_all
  · intro s t now2 now3 b hst hlf hgt hge hle
    rw [execute_probe_failure cfg now2 s t hst hlf hgt hge]
    rw [execute_open_fastfail cfg now3 _ now2 b rfl rfl hle]

/-- Witness for C1 at the default breaker configuration (threshold 5):
five consecutive failures open the breaker; a call 10 ms after the last
failure fails fast without running the operation; a probe after the reset
timeout closes the breaker on success and re-opens it on failure. -/
theorem circuitBreaker_spec_witness :
    (1 : Nat) ≤ (5 : Nat)
  ∧ ((failIter { threshold := 5, timeout := 60000, resetTimeout := 300000 } 100)^[5]
      {}).status = .opened
  ∧ MappingCircuitBreaker.execute
      { threshold := 5, timeout := 60000, resetTimeout := 300000 } 110
      { status := .opened, failures := 5, lastFailureTime := some 100 } true =
      { result := .breakerOpenError,
        state := { status := .opened, failures := 5, lastFailureTime := some 100 },
        invoked := false }
  ∧ MappingCircuitBreaker.execute
      { threshold := 5, timeout := 60000, resetTimeout := 300000 } 300200
      { status := .opened, failures := 5, lastFailureTime := some 100 } true =
      { result := .ok,
        state := { status := .closed, failures := 0, lastFailureTime := none },
        invoked := true }
  ∧ MappingCircuitBreaker.execute
      { threshold := 5, timeout := 60000, resetTimeout := 300000 } 300200
      { status := .opened, failures := 5, lastFailureTime := some 100 } false =
      { result := .breakerOpenedError,
        state := { status := .opened, failures := 6, lastFailureTime := some 300200 },
        invoked := true } :=
  ⟨by decide,
    (circuitBreaker_spec { threshold := 5, timeout := 60000, resetTimeout := 300000 }
      100 (by decide)).1.1,
    (circuitBreaker_spec { threshold := 5, timeout := 60000, resetTimeout := 300000 }
      100 (by decide)).2.1
      { status := .opened, failures := 5, lastFailureTime := some 100 } 100 110 true
      rfl rfl (by decide),
    ((circuitBreaker_spec { threshold := 5, timeout := 60000, resetTimeout := 300000 }
      100 (by decide)).2.2.1
      { status := .opened, failures := 5, lastFailureTime := some 100 } 100 300200
      rfl rfl (by decide)).1,
    ((circuitBreaker_spec { threshold := 5, timeout := 60000, resetTimeout := 300000 }
      100 (by decide)).2.2.1
      { status := .opened, failures := 5, lastFailureTime := some 100 } 100 300200
      rfl rfl (by decide)).2 (by decide)⟩
